import Mathlib

/-!
Shallow embedding of the layer registry facade (class `QGISProjectManager`
in `src/examples/qgis_example.py`) and proofs about its operations.

The project store (`QgsProject.mapLayers()`) is a mapping from layer id to
layer with insertion-ordered iteration; it is embedded as an association
list `List (String × Layer)` in iteration order.  A layer carries the QGIS
type code returned by `layer.type()` (`0` = vector, `1` = raster), the
validity flag, the CRS authority id, the schema field names, the ordered
feature sequence and the mutable selection set.  Collaborator constructors
(`QgsVectorLayer(path, name, "ogr")`, `QgsRasterLayer(path, name)`) and the
export codec (`QgsVectorFileWriter.writeAsVectorFormat`) are parameters of
the corresponding facade operations.  A second, exception-aware embedding
(suffix `E`) models collaborator calls that can raise, to reason about the
try/except structure of the facade.
-/

namespace QGISExample

/-- Attribute values carried by a feature (Python values compared with `==`). -/
inductive Value where
  | str : String → Value
  | intV : Int → Value
  | null : Value
deriving DecidableEq

/-- One record of a vector layer: a feature id and named attribute values. -/
structure Feature where
  fid : Int
  attrs : List (String × Value)
deriving DecidableEq

/-- `feature.attribute(name)`: the value of the named attribute, or `none`
when the feature has no such field (QGIS raises `KeyError` there; the
callers below model that fault explicitly). -/
def Feature.attributeValue (f : Feature) (a : String) : Option Value :=
  match f.attrs.find? (fun p => p.1 = a) with
  | some p => some p.2
  | none => none

/-- A QGIS map layer as the facade sees it.  `type` is the numeric code of
`layer.type()`: `0` for vector, `1` for raster.  `fields` are the schema
field names in order; `features` is the ordered feature sequence;
`selection` is the mutable selected-feature-id set. -/
structure Layer where
  id : String
  name : String
  type : Nat
  valid : Bool
  crs : String
  fields : List String
  features : List Feature
  selection : List Int
deriving DecidableEq

/-- The project's layer map `mapLayers()`: layer id to layer, in iteration
(insertion) order. -/
abbrev Project := List (String × Layer)

/-- Well-formedness of the project map: each entry is keyed by its layer's
id (QGIS registers layers under `layer.id()`). -/
def WFProject (P : Project) : Prop := ∀ p ∈ P, p.1 = p.2.id

/-- `get_layer_by_name`: linear scan over `mapLayers().values()`, returning
the first layer whose `name()` equals the query, else `None`. -/
def get_layer_by_name : Project → String → Option Layer
  | [], _ => none
  | (_, l) :: rest, nm =>
    if l.name = nm then some l else get_layer_by_name rest nm

/-- `remove_layer`: resolve the name, then `removeMapLayer(layer.id())`
(drop the entry keyed by that id) and return `True`; `False` if the name
resolves to no layer. -/
def remove_layer (P : Project) (nm : String) : Bool × Project :=
  match get_layer_by_name P nm with
  | none => (false, P)
  | some l => (true, P.filter (fun p => decide (p.1 ≠ l.id)))

/-- Truth value of the Python guard `limit and i >= limit` in
`get_layer_features`: falsy when `limit` is `None` or `0`, otherwise the
comparison `i >= limit`. -/
def limitHit (limit : Option Nat) (i : Nat) : Bool :=
  match limit with
  | none => false
  | some k => if k = 0 then false else decide (i ≥ k)

/-- The feature-collection loop of `get_layer_features`:
`for i, feature in enumerate(...): if limit and i >= limit: break; append`. -/
def featLoop (limit : Option Nat) : Nat → List Feature → List Feature
  | _, [] => []
  | i, f :: fs =>
    if limitHit limit i then [] else f :: featLoop limit (i + 1) fs

/-- `get_layer_features`: empty when the name resolves to no layer or the
layer's type code is not `0` (vector); otherwise the enumerate loop over
the layer's features with the `limit` guard. -/
def get_layer_features (P : Project) (nm : String) (limit : Option Nat) :
    List Feature :=
  match get_layer_by_name P nm with
  | none => []
  | some l => if l.type ≠ 0 then [] else featLoop limit 0 l.features

/-- `get_layer_attributes`: the schema field names of a resolved vector
layer; empty when unresolved or not vector. -/
def get_layer_attributes (P : Project) (nm : String) : List String :=
  match get_layer_by_name P nm with
  | none => []
  | some l => if l.type ≠ 0 then [] else l.fields

/-- The scan loop of `filter_features`: collect features whose attribute
equals the value; a missing attribute raises (`Except.error`), aborting the
scan as the Python `KeyError` does. -/
def filterLoop (a : String) (v : Value) : List Feature → Except Unit (List Feature)
  | [] => Except.ok []
  | f :: fs =>
    match f.attributeValue a with
    | none => Except.error ()
    | some w =>
      match filterLoop a v fs with
      | Except.error e => Except.error e
      | Except.ok rest => Except.ok (if w = v then f :: rest else rest)

/-- `filter_features`: empty when unresolved or not vector; otherwise the
equality scan, with the surrounding `try/except` turning a raised
`KeyError` into the empty list. -/
def filter_features (P : Project) (nm a : String) (v : Value) : List Feature :=
  match get_layer_by_name P nm with
  | none => []
  | some l =>
    if l.type ≠ 0 then []
    else
      match filterLoop a v l.features with
      | Except.error _ => []
      | Except.ok fs => fs

/-- `layer.selectByIds(ids)`: replace the layer's selection set. -/
def setSelection (l : Layer) (ids : List Int) : Layer :=
  { l with selection := ids }

/-- In-place mutation of the layer object held by the project map: the
entry keyed by the layer's id gets the new selection set. -/
def updateLayerSelection (P : Project) (lid : String) (ids : List Int) : Project :=
  P.map (fun p => if p.1 = lid then (p.1, setSelection p.2 ids) else p)

/-- `select_features`: `False` (project untouched) when unresolved or not
vector; otherwise `selectByIds(feature_ids)` and `True`. -/
def select_features (P : Project) (nm : String) (ids : List Int) :
    Bool × Project :=
  match get_layer_by_name P nm with
  | none => (false, P)
  | some l =>
    if l.type ≠ 0 then (false, P)
    else (true, updateLayerSelection P l.id ids)

/-- `clear_selection`: `False` when unresolved or not vector; otherwise
`removeSelection()` (empty the selection set) and `True`. -/
def clear_selection (P : Project) (nm : String) : Bool × Project :=
  match get_layer_by_name P nm with
  | none => (false, P)
  | some l =>
    if l.type ≠ 0 then (false, P)
    else (true, updateLayerSelection P l.id [])

/-- `export_vector_layer`: `False` when unresolved or not vector; otherwise
the external codec writes the layer and the operation succeeds exactly when
the codec reports error code `0` (`QgsVectorFileWriter.NoError`). -/
def export_vector_layer (codec : Layer → String → String → Nat)
    (P : Project) (nm output driver : String) : Bool :=
  match get_layer_by_name P nm with
  | none => false
  | some l =>
    if l.type ≠ 0 then false
    else if codec l output driver = 0 then true else false

/-- What the collaborator's layer constructor derives from a file path:
id, validity flag, CRS, schema and features (the layer's display name is
supplied separately by the caller). -/
structure LayerSource where
  id : String
  valid : Bool
  crs : String
  fields : List String
  features : List Feature
deriving DecidableEq

/-- `QgsVectorLayer(file_path, name, "ogr")`: a vector layer (type code 0)
built from the source, carrying the given display name. -/
def mkVectorLayer (src : LayerSource) (nm : String) : Layer :=
  { id := src.id, name := nm, type := 0, valid := src.valid, crs := src.crs,
    fields := src.fields, features := src.features, selection := [] }

/-- `QgsRasterLayer(file_path, name)`: a raster layer (type code 1) built
from the source, carrying the given display name. -/
def mkRasterLayer (src : LayerSource) (nm : String) : Layer :=
  { id := src.id, name := nm, type := 1, valid := src.valid, crs := src.crs,
    fields := [], features := [], selection := [] }

/-- `os.path.basename`: characters after the last path separator `/`. -/
def basenameChars (p : List Char) : List Char :=
  p.foldl (fun acc c => if c = '/' then [] else acc ++ [c]) []

/-- Index of the last `.` in a character list, if any. -/
def lastDotIdx : List Char → Option Nat
  | [] => none
  | c :: cs =>
    match lastDotIdx cs with
    | some j => some (j + 1)
    | none => if c = '.' then some 0 else none

/-- The root part of `os.path.splitext` applied to a basename (no `/` in
it): cut at the last `.`, unless every character before it is itself a `.`
(leading dots do not start an extension). -/
def splitextStem (p : List Char) : List Char :=
  match lastDotIdx p with
  | none => p
  | some d => if (p.take d).all (fun c => c = '.') then p else p.take d

/-- `os.path.splitext(os.path.basename(file_path))[0]`: the default layer
name derived from a file path. -/
def derivedName (path : String) : String :=
  String.mk (splitextStem (basenameChars path.data))

/-- Python `layer_name or default`: the default when the argument is absent
or the empty string (falsy). -/
def pyStrOr (x : Option String) (d : String) : String :=
  match x with
  | none => d
  | some s => if s = "" then d else s

/-- `add_vector_layer`: build the layer via the collaborator constructor
under the given or derived name; `None` (project untouched) when the
constructed layer is invalid; otherwise `addMapLayer` (append under the
layer's id) and return the layer. -/
def add_vector_layer (ctor : String → LayerSource) (P : Project)
    (file_path : String) (layer_name : Option String) :
    Option Layer × Project :=
  let nm := pyStrOr layer_name (derivedName file_path)
  let layer := mkVectorLayer (ctor file_path) nm
  if layer.valid = false then (none, P)
  else (some layer, P ++ [(layer.id, layer)])

/-- `add_raster_layer`: same contract as `add_vector_layer`, building a
raster layer. -/
def add_raster_layer (ctor : String → LayerSource) (P : Project)
    (file_path : String) (layer_name : Option String) :
    Option Layer × Project :=
  let nm := pyStrOr layer_name (derivedName file_path)
  let layer := mkRasterLayer (ctor file_path) nm
  if layer.valid = false then (none, P)
  else (some layer, P ++ [(layer.id, layer)])

/-! Exception-aware embedding.  Collaborator accessors (`layer.name()`,
`layer.crs()`, `layer.getFeatures()`) call into wrapped C++ objects and can
raise (e.g. `RuntimeError` on a deleted object); here each such accessor is
an `Except Fault` value of the layer.  Facade bodies are translated in the
`Except` monad; a `try/except` block in the source appears as a `match`
that converts `Except.error` into the operation's failure value, and an
operation with no `try/except` simply returns the `Except` value. -/

/-- A fault raised by a collaborator call: a `RuntimeError` from a wrapped
C++ object, or the `KeyError` raised by `feature.attribute` on a missing
field. -/
inductive Fault where
  | runtime : Fault
  | keyError : Fault
deriving DecidableEq

/-- Bounding-box payload returned by `layer.extent()`.  The facade never
computes with the coordinates — it only repackages them into a dictionary —
so the (floating-point) coordinate values are embedded as opaque integer
payloads. -/
structure ExtentBox where
  xmin : Int
  ymin : Int
  xmax : Int
  ymax : Int

/-- A layer whose accessor methods may raise. -/
structure LayerE where
  id : String
  name : Except Fault String
  type : Nat
  valid : Bool
  crs : Except Fault String
  features : Except Fault (List Feature)
  fields : Except Fault (List String)
  extent : Except Fault ExtentBox
  selectByIds : List Int → Except Fault Unit
  removeSelection : Except Fault Unit

/-- The project map in the exception-aware embedding. -/
abbrev ProjectE := List (String × LayerE)

/-- One summary record produced by `list_layers`. -/
structure LayerInfo where
  id : String
  name : String
  type : Nat
  valid : Bool
  crs : String

/-- `get_layer_by_name` (exception-aware): the scan calls `layer.name()`
on each layer; the source has no `try/except` here, so a raised fault
propagates to the caller. -/
def get_layer_by_nameE : ProjectE → String → Except Fault (Option LayerE)
  | [], _ => Except.ok none
  | (_, l) :: rest, nm =>
    match l.name with
    | Except.error e => Except.error e
    | Except.ok n =>
      if n = nm then Except.ok (some l) else get_layer_by_nameE rest nm

/-- `list_layers` (exception-aware): builds one summary per layer, calling
`layer.name()` and `layer.crs()`; the source has no `try/except`, so a
raised fault propagates to the caller. -/
def list_layersE : ProjectE → Except Fault (List LayerInfo)
  | [] => Except.ok []
  | (k, l) :: rest =>
    match l.name with
    | Except.error e => Except.error e
    | Except.ok n =>
      match l.crs with
      | Except.error e => Except.error e
      | Except.ok c =>
        match list_layersE rest with
        | Except.error e => Except.error e
        | Except.ok infos =>
          Except.ok ({ id := k, name := n, type := l.type, valid := l.valid,
                       crs := c } :: infos)

/-- The `try` body of `get_layer_features` in the exception-aware
embedding: name resolution and `getFeatures()` may raise. -/
def get_layer_featuresE_body (P : ProjectE) (nm : String)
    (limit : Option Nat) : Except Fault (List Feature) :=
  match get_layer_by_nameE P nm with
  | Except.error e => Except.error e
  | Except.ok none => Except.ok []
  | Except.ok (some l) =>
    if l.type ≠ 0 then Except.ok []
    else
      match l.features with
      | Except.error e => Except.error e
      | Except.ok fs => Except.ok (featLoop limit 0 fs)

/-- `get_layer_features` (exception-aware): the source wraps the body in
`try/except` and returns `[]` on any raised fault. -/
def get_layer_featuresE (P : ProjectE) (nm : String) (limit : Option Nat) :
    List Feature :=
  match get_layer_featuresE_body P nm limit with
  | Except.error _ => []
  | Except.ok fs => fs

/-- `remove_layer` (exception-aware): the source wraps the body in
`try/except` and returns `False` on any raised fault, so a fault from the
inner name scan is caught here. -/
def remove_layerE (P : ProjectE) (nm : String) : Bool × ProjectE :=
  match get_layer_by_nameE P nm with
  | Except.error _ => (false, P)
  | Except.ok none => (false, P)
  | Except.ok (some l) => (true, P.filter (fun p => decide (p.1 ≠ l.id)))

/-- `load_project` (exception-aware): `self.project.read(project_path)` is
the collaborator call; a raised fault is caught by the `try/except` and
reported as `False`. -/
def load_projectE (readFn : String → Except Fault Bool)
    (project_path : String) : Bool :=
  match readFn project_path with
  | Except.error _ => false
  | Except.ok b => b

/-- Python `save_path or self.project_path`: the second operand when the
first is absent or the empty string. -/
def pyOptStrOr (a b : Option String) : Option String :=
  match a with
  | none => b
  | some s => if s = "" then b else some s

/-- `save_project` (exception-aware): `path = save_path or project_path`;
a falsy path (`None` or empty) returns `False` before any collaborator
call; otherwise `self.project.write(path)` runs and a raised fault is
caught as `False`. -/
def save_projectE (writeFn : String → Except Fault Bool)
    (project_path save_path : Option String) : Bool :=
  match pyOptStrOr save_path project_path with
  | none => false
  | some p =>
    if p = "" then false
    else
      match writeFn p with
      | Except.error _ => false
      | Except.ok b => b

/-- `add_vector_layer` (exception-aware): the collaborator constructor
`QgsVectorLayer(path, name, "ogr")` may raise; the `try/except` converts
the fault into `None` with the project untouched; otherwise the validity
check and registration proceed as in the pure embedding. -/
def add_vector_layerE (ctorE : String → String → Except Fault LayerE)
    (P : ProjectE) (file_path : String) (layer_name : Option String) :
    Option LayerE × ProjectE :=
  match ctorE file_path (pyStrOr layer_name (derivedName file_path)) with
  | Except.error _ => (none, P)
  | Except.ok layer =>
    if layer.valid = false then (none, P)
    else (some layer, P ++ [(layer.id, layer)])

/-- `add_raster_layer` (exception-aware): same fault contract as
`add_vector_layerE` for `QgsRasterLayer(path, name)`. -/
def add_raster_layerE (ctorE : String → String → Except Fault LayerE)
    (P : ProjectE) (file_path : String) (layer_name : Option String) :
    Option LayerE × ProjectE :=
  match ctorE file_path (pyStrOr layer_name (derivedName file_path)) with
  | Except.error _ => (none, P)
  | Except.ok layer =>
    if layer.valid = false then (none, P)
    else (some layer, P ++ [(layer.id, layer)])

/-- The `try` body of `get_layer_attributes`: name resolution and
`layer.fields()` may raise. -/
def get_layer_attributesE_body (P : ProjectE) (nm : String) :
    Except Fault (List String) :=
  match get_layer_by_nameE P nm with
  | Except.error e => Except.error e
  | Except.ok none => Except.ok []
  | Except.ok (some l) =>
    if l.type ≠ 0 then Except.ok []
    else
      match l.fields with
      | Except.error e => Except.error e
      | Except.ok fl => Except.ok fl

/-- `get_layer_attributes` (exception-aware): the `try/except` converts a
raised fault into the empty list. -/
def get_layer_attributesE (P : ProjectE) (nm : String) : List String :=
  match get_layer_attributesE_body P nm with
  | Except.error _ => []
  | Except.ok fl => fl

/-- The `try` body of `filter_features`: name resolution and
`getFeatures()` may raise, and the scan itself raises `KeyError` on a
missing attribute. -/
def filter_featuresE_body (P : ProjectE) (nm a : String) (v : Value) :
    Except Fault (List Feature) :=
  match get_layer_by_nameE P nm with
  | Except.error e => Except.error e
  | Except.ok none => Except.ok []
  | Except.ok (some l) =>
    if l.type ≠ 0 then Except.ok []
    else
      match l.features with
      | Except.error e => Except.error e
      | Except.ok fs =>
        match filterLoop a v fs with
        | Except.error _ => Except.error Fault.keyError
        | Except.ok r => Except.ok r

/-- `filter_features` (exception-aware): the `try/except` converts a
raised fault into the empty list. -/
def filter_featuresE (P : ProjectE) (nm a : String) (v : Value) :
    List Feature :=
  match filter_featuresE_body P nm a v with
  | Except.error _ => []
  | Except.ok r => r

/-- The `try` body of `select_features`: name resolution and
`layer.selectByIds(feature_ids)` may raise. -/
def select_featuresE_body (P : ProjectE) (nm : String) (ids : List Int) :
    Except Fault Bool :=
  match get_layer_by_nameE P nm with
  | Except.error e => Except.error e
  | Except.ok none => Except.ok false
  | Except.ok (some l) =>
    if l.type ≠ 0 then Except.ok false
    else
      match l.selectByIds ids with
      | Except.error e => Except.error e
      | Except.ok _ => Except.ok true

/-- `select_features` (exception-aware): the `try/except` converts a
raised fault into `False`. -/
def select_featuresE (P : ProjectE) (nm : String) (ids : List Int) : Bool :=
  match select_featuresE_body P nm ids with
  | Except.error _ => false
  | Except.ok b => b

/-- The `try` body of `clear_selection`: name resolution and
`layer.removeSelection()` may raise. -/
def clear_selectionE_body (P : ProjectE) (nm : String) : Except Fault Bool :=
  match get_layer_by_nameE P nm with
  | Except.error e => Except.error e
  | Except.ok none => Except.ok false
  | Except.ok (some l) =>
    if l.type ≠ 0 then Except.ok false
    else
      match l.removeSelection with
      | Except.error e => Except.error e
      | Except.ok _ => Except.ok true

/-- `clear_selection` (exception-aware): the `try/except` converts a
raised fault into `False`. -/
def clear_selectionE (P : ProjectE) (nm : String) : Bool :=
  match clear_selectionE_body P nm with
  | Except.error _ => false
  | Except.ok b => b

/-- The `try` body of `get_layer_crs`: name resolution and
`layer.crs().authid()` may raise; no vector-type guard here. -/
def get_layer_crsE_body (P : ProjectE) (nm : String) :
    Except Fault (Option String) :=
  match get_layer_by_nameE P nm with
  | Except.error e => Except.error e
  | Except.ok none => Except.ok none
  | Except.ok (some l) =>
    match l.crs with
    | Except.error e => Except.error e
    | Except.ok c => Except.ok (some c)

/-- `get_layer_crs` (exception-aware): the `try/except` converts a raised
fault into `None`. -/
def get_layer_crsE (P : ProjectE) (nm : String) : Option String :=
  match get_layer_crsE_body P nm with
  | Except.error _ => none
  | Except.ok c => c

/-- The `try` body of `get_layer_extent`: name resolution and
`layer.extent()` may raise; the returned box is repackaged as the
`{xmin, ymin, xmax, ymax}` dictionary. -/
def get_layer_extentE_body (P : ProjectE) (nm : String) :
    Except Fault (Option ExtentBox) :=
  match get_layer_by_nameE P nm with
  | Except.error e => Except.error e
  | Except.ok none => Except.ok none
  | Except.ok (some l) =>
    match l.extent with
    | Except.error e => Except.error e
    | Except.ok box => Except.ok (some box)

/-- `get_layer_extent` (exception-aware): the `try/except` converts a
raised fault into `None`. -/
def get_layer_extentE (P : ProjectE) (nm : String) : Option ExtentBox :=
  match get_layer_extentE_body P nm with
  | Except.error _ => none
  | Except.ok b => b

/-- The `try` body of `set_layer_visibility`: name resolution,
`root.findLayer(layer.id())` and `node.setItemVisibilityChecked(visible)`
may raise; an unresolved layer or a missing tree node yields `False`. -/
def set_layer_visibilityE_body (findNode : String → Except Fault Bool)
    (setVis : String → Bool → Except Fault Unit) (P : ProjectE)
    (nm : String) (visible : Bool) : Except Fault Bool :=
  match get_layer_by_nameE P nm with
  | Except.error e => Except.error e
  | Except.ok none => Except.ok false
  | Except.ok (some l) =>
    match findNode l.id with
    | Except.error e => Except.error e
    | Except.ok false => Except.ok false
    | Except.ok true =>
      match setVis l.id visible with
      | Except.error e => Except.error e
      | Except.ok _ => Except.ok true

/-- `set_layer_visibility` (exception-aware): the `try/except` converts a
raised fault into `False`. -/
def set_layer_visibilityE (findNode : String → Except Fault Bool)
    (setVis : String → Bool → Except Fault Unit) (P : ProjectE)
    (nm : String) (visible : Bool) : Bool :=
  match set_layer_visibilityE_body findNode setVis P nm visible with
  | Except.error _ => false
  | Except.ok b => b

/-- The `try` body of `export_vector_layer`: name resolution and the codec
call `QgsVectorFileWriter.writeAsVectorFormat` may raise; success is the
codec reporting error code `0`. -/
def export_vector_layerE_body (codec : LayerE → String → String → Except Fault Nat)
    (P : ProjectE) (nm output driver : String) : Except Fault Bool :=
  match get_layer_by_nameE P nm with
  | Except.error e => Except.error e
  | Except.ok none => Except.ok false
  | Except.ok (some l) =>
    if l.type ≠ 0 then Except.ok false
    else
      match codec l output driver with
      | Except.error e => Except.error e
      | Except.ok code => Except.ok (if code = 0 then true else false)

/-- `export_vector_layer` (exception-aware): the `try/except` converts a
raised fault into `False`. -/
def export_vector_layerE (codec : LayerE → String → String → Except Fault Nat)
    (P : ProjectE) (nm output driver : String) : Bool :=
  match export_vector_layerE_body codec P nm output driver with
  | Except.error _ => false
  | Except.ok b => b

/-! Concrete example data, used to instantiate the theorems below. -/

/-- Example feature 1 of the `roads` layer. -/
def fRoads1 : Feature := { fid := 1, attrs := [("kind", Value.str "A")] }

/-- Example feature 2 of the `roads` layer. -/
def fRoads2 : Feature := { fid := 2, attrs := [("kind", Value.str "B")] }

/-- Example vector layer named `roads` with two features. -/
def layerRoads : Layer :=
  { id := "L1", name := "roads", type := 0, valid := true,
    crs := "EPSG:4326", fields := ["kind"],
    features := [fRoads1, fRoads2], selection := [] }

/-- Example raster layer named `dem`. -/
def layerDem : Layer :=
  { id := "L2", name := "dem", type := 1, valid := true,
    crs := "EPSG:4326", fields := [], features := [], selection := [] }

/-- Example project holding the `roads` vector layer and the `dem` raster
layer. -/
def exProj : Project := [("L1", layerRoads), ("L2", layerDem)]

/-- Example collaborator constructor: every path yields a valid source. -/
def exCtor (path : String) : LayerSource :=
  { id := path ++ "#id", valid := true, crs := "EPSG:4326",
    fields := ["kind"], features := [fRoads1] }

/-- Example collaborator constructor: every path yields an invalid source. -/
def exCtorBad (path : String) : LayerSource :=
  { id := path ++ "#id", valid := false, crs := "EPSG:4326",
    fields := [], features := [] }

/-- A layer whose `crs()` accessor raises: `name()` succeeds, `crs()`
faults, everything else succeeds. -/
def layerCrsFaults : LayerE :=
  { id := "L1", name := Except.ok "roads", type := 0, valid := true,
    crs := Except.error Fault.runtime,
    features := Except.ok [fRoads1, fRoads2],
    fields := Except.ok ["kind"],
    extent := Except.ok { xmin := 0, ymin := 0, xmax := 1, ymax := 1 },
    selectByIds := fun _ => Except.ok (),
    removeSelection := Except.ok () }

/-- A layer whose `name()` accessor raises. -/
def layerNameFaults : LayerE :=
  { id := "L3", name := Except.error Fault.runtime, type := 0, valid := true,
    crs := Except.ok "EPSG:4326", features := Except.ok [],
    fields := Except.ok [],
    extent := Except.ok { xmin := 0, ymin := 0, xmax := 1, ymax := 1 },
    selectByIds := fun _ => Except.ok (),
    removeSelection := Except.ok () }

/-- A layer whose `getFeatures()` call raises. -/
def layerFeaturesFault : LayerE :=
  { id := "L4", name := Except.ok "roads", type := 0, valid := true,
    crs := Except.ok "EPSG:4326", features := Except.error Fault.runtime,
    fields := Except.ok ["kind"],
    extent := Except.ok { xmin := 0, ymin := 0, xmax := 1, ymax := 1 },
    selectByIds := fun _ => Except.ok (),
    removeSelection := Except.ok () }

/-- A vector layer resolvable by name whose every other collaborator call
raises: `crs()`, `getFeatures()`, `fields()`, `extent()`,
`selectByIds(...)` and `removeSelection()` all fault. -/
def layerAllFaults : LayerE :=
  { id := "LA", name := Except.ok "roads", type := 0, valid := true,
    crs := Except.error Fault.runtime,
    features := Except.error Fault.runtime,
    fields := Except.error Fault.runtime,
    extent := Except.error Fault.runtime,
    selectByIds := fun _ => Except.error Fault.runtime,
    removeSelection := Except.error Fault.runtime }

/-- Exception-aware project whose only layer has a faulting `crs()`. -/
def exProjCrsFault : ProjectE := [("L1", layerCrsFaults)]

/-- Exception-aware project whose only layer has a faulting `name()`. -/
def exProjNameFault : ProjectE := [("L3", layerNameFaults)]

/-- Exception-aware project whose only layer has a faulting
`getFeatures()`. -/
def exProjFeaturesFault : ProjectE := [("L4", layerFeaturesFault)]

/-- Exception-aware project whose only layer faults on every accessor
except `name()`. -/
def exProjAllFaults : ProjectE := [("LA", layerAllFaults)]

/-- A project-store read/write call that always raises. -/
def readFnBad : String → Except Fault Bool :=
  fun _ => Except.error Fault.runtime

/-- A collaborator layer constructor that always raises. -/
def ctorBadE : String → String → Except Fault LayerE :=
  fun _ _ => Except.error Fault.runtime

/-- An export codec that always raises. -/
def codecBadE : LayerE → String → String → Except Fault Nat :=
  fun _ _ _ => Except.error Fault.runtime

/-- A display-tree node lookup that always raises. -/
def findNodeBad : String → Except Fault Bool :=
  fun _ => Except.error Fault.runtime

/-- A display-tree visibility setter that always succeeds. -/
def setVisOk : String → Bool → Except Fault Unit :=
  fun _ _ => Except.ok ()

/-! Helper lemmas about the name scan. -/

/-- The scan reports absence exactly when no layer in the map carries the
queried name. -/
theorem get_layer_by_name_eq_none_iff (P : Project) (nm : String) :
    get_layer_by_name P nm = none ↔ ∀ p ∈ P, p.2.name ≠ nm := by
  induction P with
  | nil => simp [get_layer_by_name]
  | cons hd tl ih =>
    obtain ⟨k, l⟩ := hd
    by_cases h : l.name = nm
    · simp [get_layer_by_name, h]
    · simp [get_layer_by_name, h, ih]

/-- A successful scan returns a layer carrying the queried name that sits
after a (possibly empty) block of layers none of which carries it: the
first match in iteration order. -/
theorem get_layer_by_name_eq_some_decomp (P : Project) (nm : String)
    (l : Layer) (h : get_layer_by_name P nm = some l) :
    l.name = nm ∧
      ∃ pre k post, P = pre ++ (k, l) :: post ∧ ∀ p ∈ pre, p.2.name ≠ nm := by
  induction P with
  | nil => simp [get_layer_by_name] at h
  | cons hd tl ih =>
    obtain ⟨k0, l0⟩ := hd
    by_cases hn : l0.name = nm
    · rw [get_layer_by_name, if_pos hn] at h
      obtain rfl : l0 = l := by injection h
      exact ⟨hn, [], k0, tl, rfl, by simp⟩
    · rw [get_layer_by_name, if_neg hn] at h
      obtain ⟨hname, pre, k, post, hsplit, hpre⟩ := ih h
      refine ⟨hname, (k0, l0) :: pre, k, post, by simp [hsplit], ?_⟩
      intro p hp
      rcases List.mem_cons.mp hp with hp0 | hp1
      · subst hp0; exact hn
      · exact hpre p hp1

/-- Claim C1: for every project layer mapping and every name,
`get_layer_by_name` returns the first layer in the mapping's iteration
order whose name equals the queried name, and returns `none` when no layer
has that name; with duplicate names it deterministically returns the first
match on every call (the function is pure), and a collision is not an
error. -/
theorem get_layer_by_name_first_match :
    ∀ (P : Project) (nm : String),
      (get_layer_by_name P nm = none ↔ ∀ p ∈ P, p.2.name ≠ nm) ∧
      (∀ l, get_layer_by_name P nm = some l →
        l.name = nm ∧
          ∃ pre k post,
            P = pre ++ (k, l) :: post ∧ ∀ p ∈ pre, p.2.name ≠ nm) := by
  intro P nm
  exact ⟨get_layer_by_name_eq_none_iff P nm,
    fun l h => get_layer_by_name_eq_some_decomp P nm l h⟩

/-- Witness for C1: on the example project, looking up `roads` returns the
layer `layerRoads`, seated first among the `roads`-named layers, and
looking up `rivers` returns `none` because no layer has that name. -/
theorem get_layer_by_name_first_match_witness :
    (layerRoads.name = "roads" ∧
      ∃ pre k post,
        exProj = pre ++ (k, layerRoads) :: post ∧
          ∀ p ∈ pre, p.2.name ≠ "roads") ∧
    get_layer_by_name exProj "rivers" = none :=
  ⟨(get_layer_by_name_first_match exProj "roads").2 layerRoads rfl,
    (get_layer_by_name_first_match exProj "rivers").1.mpr (by decide)⟩

/-- Claim C2: every facade operation that requires a vector layer
(`get_layer_features`, `get_layer_attributes`, `filter_features`,
`select_features`, `clear_selection`, `export_vector_layer`) returns its
failure value (empty sequence or `false`), leaving the project untouched,
whenever the name resolves to no layer or to a layer whose type code is
not vector. -/
theorem vector_guard_rejects (P : Project) (nm : String)
    (h : get_layer_by_name P nm = none ∨
      ∃ l, get_layer_by_name P nm = some l ∧ l.type ≠ 0) :
    (∀ limit, get_layer_features P nm limit = []) ∧
    get_layer_attributes P nm = [] ∧
    (∀ a v, filter_features P nm a v = []) ∧
    (∀ ids, select_features P nm ids = (false, P)) ∧
    clear_selection P nm = (false, P) ∧
    (∀ codec output driver,
      export_vector_layer codec P nm output driver = false) := by
  rcases h with h | ⟨l, hl, ht⟩
  · refine ⟨fun limit => ?_, ?_, fun a v => ?_, fun ids => ?_, ?_,
      fun codec output driver => ?_⟩ <;>
      simp [get_layer_features, get_layer_attributes, filter_features,
        select_features, clear_selection, export_vector_layer, h]
  · refine ⟨fun limit => ?_, ?_, fun a v => ?_, fun ids => ?_, ?_,
      fun codec output driver => ?_⟩ <;>
      simp [get_layer_features, get_layer_attributes, filter_features,
        select_features, clear_selection, export_vector_layer, hl, ht]

/-- Witness for C2: on the example project, the unresolved name `rivers`
and the raster layer `dem` are both rejected with failure values. -/
theorem vector_guard_rejects_witness :
    get_layer_features exProj "rivers" (some 3) = [] ∧
    get_layer_attributes exProj "dem" = [] ∧
    select_features exProj "dem" [1, 2] = (false, exProj) :=
  ⟨(vector_guard_rejects exProj "rivers" (Or.inl (by decide))).1 (some 3),
    ⟨(vector_guard_rejects exProj "dem"
        (Or.inr ⟨layerDem, by decide, by decide⟩)).2.1,
      (vector_guard_rejects exProj "dem"
        (Or.inr ⟨layerDem, by decide, by decide⟩)).2.2.2.1 [1, 2]⟩⟩

/-- Claim C3, counterexample: `list_layers` has no `try/except`; when the
collaborator call `layer.crs()` raises, the fault propagates across the
facade boundary instead of being converted into a return value, so the
claim that every facade operation returns a defined outcome is false. -/
theorem list_layers_propagates_fault :
    list_layersE exProjCrsFault = Except.error Fault.runtime := rfl

/-- Claim C3, amended: every facade operation whose body is wrapped in
`try/except` — `load_project`, `save_project`, `add_vector_layer`,
`add_raster_layer`, `remove_layer`, `get_layer_features`,
`get_layer_attributes`, `filter_features`, `select_features`,
`clear_selection`, `get_layer_crs`, `get_layer_extent`,
`set_layer_visibility` and `export_vector_layer` — converts a raised
collaborator fault into its defined failure value (`false`, `none`, or the
empty sequence, with the project untouched where applicable); the two
unwrapped operations, `list_layers` and `get_layer_by_name`, propagate a
collaborator fault to the caller. -/
theorem wrapped_ops_catch_faults :
    (∀ (readFn : String → Except Fault Bool) (path : String) (e : Fault),
      readFn path = Except.error e → load_projectE readFn path = false) ∧
    (∀ (writeFn : String → Except Fault Bool)
      (project_path save_path : Option String) (p : String) (e : Fault),
      pyOptStrOr save_path project_path = some p → ¬p = "" →
      writeFn p = Except.error e →
      save_projectE writeFn project_path save_path = false) ∧
    (∀ (ctorE : String → String → Except Fault LayerE) (P : ProjectE)
      (path : String) (lname : Option String) (e : Fault),
      ctorE path (pyStrOr lname (derivedName path)) = Except.error e →
      add_vector_layerE ctorE P path lname = (none, P)) ∧
    (∀ (ctorE : String → String → Except Fault LayerE) (P : ProjectE)
      (path : String) (lname : Option String) (e : Fault),
      ctorE path (pyStrOr lname (derivedName path)) = Except.error e →
      add_raster_layerE ctorE P path lname = (none, P)) ∧
    (∀ (P : ProjectE) (nm : String) (e : Fault),
      get_layer_by_nameE P nm = Except.error e →
      remove_layerE P nm = (false, P)) ∧
    (∀ (P : ProjectE) (nm : String) (limit : Option Nat) (e : Fault),
      get_layer_featuresE_body P nm limit = Except.error e →
      get_layer_featuresE P nm limit = []) ∧
    (∀ (P : ProjectE) (nm : String) (e : Fault),
      get_layer_attributesE_body P nm = Except.error e →
      get_layer_attributesE P nm = []) ∧
    (∀ (P : ProjectE) (nm a : String) (v : Value) (e : Fault),
      filter_featuresE_body P nm a v = Except.error e →
      filter_featuresE P nm a v = []) ∧
    (∀ (P : ProjectE) (nm : String) (ids : List Int) (e : Fault),
      select_featuresE_body P nm ids = Except.error e →
      select_featuresE P nm ids = false) ∧
    (∀ (P : ProjectE) (nm : String) (e : Fault),
      clear_selectionE_body P nm = Except.error e →
      clear_selectionE P nm = false) ∧
    (∀ (P : ProjectE) (nm : String) (e : Fault),
      get_layer_crsE_body P nm = Except.error e →
      get_layer_crsE P nm = none) ∧
    (∀ (P : ProjectE) (nm : String) (e : Fault),
      get_layer_extentE_body P nm = Except.error e →
      get_layer_extentE P nm = none) ∧
    (∀ (findNode : String → Except Fault Bool)
      (setVis : String → Bool → Except Fault Unit) (P : ProjectE)
      (nm : String) (visible : Bool) (e : Fault),
      set_layer_visibilityE_body findNode setVis P nm visible =
        Except.error e →
      set_layer_visibilityE findNode setVis P nm visible = false) ∧
    (∀ (codec : LayerE → String → String → Except Fault Nat) (P : ProjectE)
      (nm output driver : String) (e : Fault),
      export_vector_layerE_body codec P nm output driver = Except.error e →
      export_vector_layerE codec P nm output driver = false) ∧
    (∀ (k nm : String) (l : LayerE) (rest : ProjectE) (e : Fault),
      l.name = Except.error e →
      get_layer_by_nameE ((k, l) :: rest) nm = Except.error e) ∧
    (∀ (k : String) (l : LayerE) (rest : ProjectE) (n : String) (e : Fault),
      l.name = Except.ok n → l.crs = Except.error e →
      list_layersE ((k, l) :: rest) = Except.error e) := by
  refine ⟨?_, ?_, ?_, ?_, ?_, ?_, ?_, ?_, ?_, ?_, ?_, ?_, ?_, ?_, ?_, ?_⟩
  · intro readFn path e h
    simp [load_projectE, h]
  · intro writeFn project_path save_path p e h1 h2 h3
    simp [save_projectE, h1, h2, h3]
  · intro ctorE P path lname e h
    simp [add_vector_layerE, h]
  · intro ctorE P path lname e h
    simp [add_raster_layerE, h]
  · intro P nm e h
    simp [remove_layerE, h]
  · intro P nm limit e h
    simp [get_layer_featuresE, h]
  · intro P nm e h
    simp [get_layer_attributesE, h]
  · intro P nm a v e h
    simp [filter_featuresE, h]
  · intro P nm ids e h
    simp [select_featuresE, h]
  · intro P nm e h
    simp [clear_selectionE, h]
  · intro P nm e h
    simp [get_layer_crsE, h]
  · intro P nm e h
    simp [get_layer_extentE, h]
  · intro findNode setVis P nm visible e h
    simp [set_layer_visibilityE, h]
  · intro codec P nm output driver e h
    simp [export_vector_layerE, h]
  · intro k nm l rest e h
    simp [get_layer_by_nameE, h]
  · intro k l rest n e h1 h2
    simp [list_layersE, h1, h2]

/-- Witness for the amended C3: every wrapped operation, instantiated at a
concrete faulting collaborator, returns its defined failure value, while
the two unwrapped scans propagate the concrete fault. -/
theorem wrapped_ops_catch_faults_witness :
    load_projectE readFnBad "proj.qgs" = false ∧
    save_projectE readFnBad none (some "out.qgs") = false ∧
    add_vector_layerE ctorBadE exProjAllFaults "/data/x.shp" none =
      (none, exProjAllFaults) ∧
    add_raster_layerE ctorBadE exProjAllFaults "/data/x.tif" none =
      (none, exProjAllFaults) ∧
    remove_layerE exProjNameFault "roads" = (false, exProjNameFault) ∧
    get_layer_featuresE exProjAllFaults "roads" none = [] ∧
    get_layer_attributesE exProjAllFaults "roads" = [] ∧
    filter_featuresE exProjAllFaults "roads" "kind" (Value.str "A") = [] ∧
    select_featuresE exProjAllFaults "roads" [1] = false ∧
    clear_selectionE exProjAllFaults "roads" = false ∧
    get_layer_crsE exProjAllFaults "roads" = none ∧
    get_layer_extentE exProjAllFaults "roads" = none ∧
    set_layer_visibilityE findNodeBad setVisOk exProjAllFaults "roads" true =
      false ∧
    export_vector_layerE codecBadE exProjAllFaults "roads" "/o.shp"
      "ESRI Shapefile" = false ∧
    get_layer_by_nameE exProjNameFault "roads" = Except.error Fault.runtime ∧
    list_layersE exProjCrsFault = Except.error Fault.runtime :=
  ⟨wrapped_ops_catch_faults.1 readFnBad "proj.qgs" Fault.runtime rfl,
    wrapped_ops_catch_faults.2.1 readFnBad none (some "out.qgs") "out.qgs"
      Fault.runtime rfl (by decide) rfl,
    wrapped_ops_catch_faults.2.2.1 ctorBadE exProjAllFaults "/data/x.shp"
      none Fault.runtime rfl,
    wrapped_ops_catch_faults.2.2.2.1 ctorBadE exProjAllFaults "/data/x.tif"
      none Fault.runtime rfl,
    wrapped_ops_catch_faults.2.2.2.2.1 exProjNameFault "roads"
      Fault.runtime rfl,
    wrapped_ops_catch_faults.2.2.2.2.2.1 exProjAllFaults "roads" none
      Fault.runtime rfl,
    wrapped_ops_catch_faults.2.2.2.2.2.2.1 exProjAllFaults "roads"
      Fault.runtime rfl,
    wrapped_ops_catch_faults.2.2.2.2.2.2.2.1 exProjAllFaults "roads" "kind"
      (Value.str "A") Fault.runtime rfl,
    wrapped_ops_catch_faults.2.2.2.2.2.2.2.2.1 exProjAllFaults "roads" [1]
      Fault.runtime rfl,
    wrapped_ops_catch_faults.2.2.2.2.2.2.2.2.2.1 exProjAllFaults "roads"
      Fault.runtime rfl,
    wrapped_ops_catch_faults.2.2.2.2.2.2.2.2.2.2.1 exProjAllFaults "roads"
      Fault.runtime rfl,
    wrapped_ops_catch_faults.2.2.2.2.2.2.2.2.2.2.2.1 exProjAllFaults
      "roads" Fault.runtime rfl,
    wrapped_ops_catch_faults.2.2.2.2.2.2.2.2.2.2.2.2.1 findNodeBad setVisOk
      exProjAllFaults "roads" true Fault.runtime rfl,
    wrapped_ops_catch_faults.2.2.2.2.2.2.2.2.2.2.2.2.2.1 codecBadE
      exProjAllFaults "roads" "/o.shp" "ESRI Shapefile" Fault.runtime rfl,
    wrapped_ops_catch_faults.2.2.2.2.2.2.2.2.2.2.2.2.2.2.1 "L3" "roads"
      layerNameFaults [] Fault.runtime rfl,
    wrapped_ops_catch_faults.2.2.2.2.2.2.2.2.2.2.2.2.2.2.2 "L1"
      layerCrsFaults [] "roads" Fault.runtime rfl rfl⟩

/-- With `limit = None` the loop guard is falsy forever: every feature is
collected. -/
theorem featLoop_none (fs : List Feature) : ∀ i, featLoop none i fs = fs := by
  induction fs with
  | nil => intro i; rfl
  | cons f fs ih =>
    intro i
    simp [featLoop, limitHit, ih]

/-- With `limit = 0` the Python guard `limit and i >= limit` is falsy
(`0` is falsy), so every feature is collected. -/
theorem featLoop_zero (fs : List Feature) : ∀ i, featLoop (some 0) i fs = fs := by
  induction fs with
  | nil => intro i; rfl
  | cons f fs ih =>
    intro i
    simp [featLoop, limitHit, ih]

/-- With a nonzero limit, the loop started at counter `i` collects the
first `limit - i` features. -/
theorem featLoop_pos (k : Nat) (hk : k ≠ 0) (fs : List Feature) :
    ∀ i, featLoop (some k) i fs = fs.take (k - i) := by
  induction fs with
  | nil => intro i; simp [featLoop]
  | cons f fs ih =>
    intro i
    by_cases hik : i ≥ k
    · have h1 : limitHit (some k) i = true := by
        simp [limitHit, hk, hik]
      have h2 : k - i = 0 := Nat.sub_eq_zero_of_le hik
      simp [featLoop, h1, h2]
    · have h1 : limitHit (some k) i = false := by
        simp [limitHit, hk]
        omega
      have h2 : k - i = (k - (i + 1)) + 1 := by omega
      simp [featLoop, h1, ih, h2]

/-- Claim C4, counterexample: on the example project the `roads` vector
layer has two features, yet `get_layer_features` with the provided limit
`0` returns both of them — not `min 0 2 = 0` features — because the Python
guard `limit and i >= limit` is falsy for `limit = 0`. -/
theorem get_layer_features_limit_zero_cex :
    get_layer_by_name exProj "roads" = some layerRoads ∧
    layerRoads.type = 0 ∧
    get_layer_features exProj "roads" (some 0) = [fRoads1, fRoads2] ∧
    (get_layer_features exProj "roads" (some 0)).length ≠
      min 0 layerRoads.features.length := by
  refine ⟨rfl, rfl, rfl, ?_⟩
  decide

/-- Claim C4, amended: for a resolved vector layer, `get_layer_features`
with a provided nonzero limit returns the prefix of the layer's features
in native order of length `min limit (feature count)` — in particular at
most `limit` features — and with the limit absent or equal to `0` (which
Python treats as falsy, i.e. as no limit) returns all features in native
order; it returns the empty sequence when the layer is unresolved or not
vector. -/
theorem get_layer_features_spec :
    ∀ (P : Project) (nm : String),
      ((get_layer_by_name P nm = none ∨
          ∃ l, get_layer_by_name P nm = some l ∧ l.type ≠ 0) →
        ∀ limit, get_layer_features P nm limit = []) ∧
      (∀ l, get_layer_by_name P nm = some l → l.type = 0 →
        get_layer_features P nm none = l.features ∧
        get_layer_features P nm (some 0) = l.features ∧
        ∀ k, k ≠ 0 →
          get_layer_features P nm (some k) = l.features.take k ∧
          (get_layer_features P nm (some k)).length =
            min k l.features.length) := by
  intro P nm
  constructor
  · intro h limit
    exact (vector_guard_rejects P nm h).1 limit
  · intro l hl ht
    have hbase : ∀ limit, get_layer_features P nm limit = featLoop limit 0 l.features := by
      intro limit
      simp [get_layer_features, hl, ht]
    refine ⟨by rw [hbase, featLoop_none], by rw [hbase, featLoop_zero], ?_⟩
    intro k hk
    have htake : get_layer_features P nm (some k) = l.features.take k := by
      rw [hbase, featLoop_pos k hk, Nat.sub_zero]
    exact ⟨htake, by rw [htake, List.length_take]⟩

/-- Witness for the amended C4: on the example project, limit `1` yields
exactly the first of the two `roads` features, absent limit yields both,
and the unresolved name `rivers` yields the empty sequence. -/
theorem get_layer_features_spec_witness :
    get_layer_features exProj "roads" (some 1) = [fRoads1] ∧
    (get_layer_features exProj "roads" (some 1)).length =
      min 1 layerRoads.features.length ∧
    get_layer_features exProj "roads" none = layerRoads.features ∧
    get_layer_features exProj "rivers" (some 5) = [] := by
  have h := (get_layer_features_spec exProj "roads").2 layerRoads rfl rfl
  have h1 := (h.2.2 1 (by decide)).1
  have h2 := (h.2.2 1 (by decide)).2
  have h0 := ((get_layer_features_spec exProj "rivers").1
    (Or.inl (by decide))) (some 5)
  exact ⟨by rw [h1]; rfl, h2, h.1, h0⟩

/-- Filtering a list twice with the same predicate changes nothing. -/
theorem filter_self_idem {α : Type} (p : α → Bool) (xs : List α) :
    (xs.filter p).filter p = xs.filter p := by
  induction xs with
  | nil => rfl
  | cons x xs ih =>
    by_cases hx : p x <;> simp [List.filter_cons, hx, ih]

/-- When every feature carries the attribute, the scan loop completes and
returns exactly the equality filter. -/
theorem filterLoop_ok (a : String) (v : Value) (fs : List Feature)
    (h : ∀ f ∈ fs, (f.attributeValue a).isSome = true) :
    filterLoop a v fs =
      Except.ok (fs.filter (fun f => decide (f.attributeValue a = some v))) := by
  induction fs with
  | nil => rfl
  | cons f fs ih =>
    obtain ⟨w, hw⟩ := Option.isSome_iff_exists.mp (h f (by simp))
    rw [filterLoop, hw, ih (fun g hg => h g (by simp [hg]))]
    by_cases hv : w = v
    · simp [List.filter_cons, hw, hv]
    · simp [List.filter_cons, hw, hv]

/-- When no feature carries the attribute, the equality filter keeps
nothing. -/
theorem filter_attr_none (a : String) (v : Value) (fs : List Feature)
    (h : ∀ f ∈ fs, f.attributeValue a = none) :
    fs.filter (fun f => decide (f.attributeValue a = some v)) = [] := by
  induction fs with
  | nil => rfl
  | cons f fs ih =>
    have hf := h f (by simp)
    simp [List.filter_cons, hf, ih (fun g hg => h g (by simp [hg]))]

/-- Claim C5: on a resolved vector layer whose features uniformly carry
(or uniformly lack) the queried attribute, `filter_features` returns
exactly the subsequence of features whose attribute equals the value under
equality comparison, filtering its own result again changes nothing
(idempotence; the operation mutates no state), and on a resolved
non-vector layer it returns the empty sequence rather than an error. -/
theorem filter_features_spec (P : Project) (nm a : String) (v : Value)
    (l : Layer) (hl : get_layer_by_name P nm = some l) :
    (l.type = 0 →
      ((∀ f ∈ l.features, (f.attributeValue a).isSome = true) ∨
        (∀ f ∈ l.features, f.attributeValue a = none)) →
      filter_features P nm a v =
        l.features.filter (fun f => decide (f.attributeValue a = some v)) ∧
      (filter_features P nm a v).filter
          (fun f => decide (f.attributeValue a = some v)) =
        filter_features P nm a v) ∧
    (l.type ≠ 0 → filter_features P nm a v = []) := by
  constructor
  · intro ht hschema
    have hmain : filter_features P nm a v =
        l.features.filter (fun f => decide (f.attributeValue a = some v)) := by
      rcases hschema with hall | hnone
      · simp [filter_features, hl, ht, filterLoop_ok a v l.features hall]
      · rw [filter_attr_none a v l.features hnone]
        cases hfs : l.features with
        | nil => simp [filter_features, hl, ht, hfs, filterLoop]
        | cons f fs =>
          have hf : f.attributeValue a = none := by
            rw [hfs] at hnone
            exact hnone f (by simp)
          simp [filter_features, hl, ht, hfs, filterLoop, hf]
    exact ⟨hmain, by rw [hmain, filter_self_idem]⟩
  · intro ht
    simp [filter_features, hl, ht]

/-- Witness for C5: on the example project, filtering `roads` by
`kind = "A"` yields exactly the first feature, and filtering it again
changes nothing, while filtering the raster layer `dem` yields the empty
sequence. -/
theorem filter_features_spec_witness :
    filter_features exProj "roads" "kind" (Value.str "A") = [fRoads1] ∧
    (filter_features exProj "roads" "kind" (Value.str "A")).filter
        (fun f => decide (f.attributeValue "kind" = some (Value.str "A"))) =
      filter_features exProj "roads" "kind" (Value.str "A") ∧
    filter_features exProj "dem" "kind" (Value.str "A") = [] := by
  have h := (filter_features_spec exProj "roads" "kind" (Value.str "A")
    layerRoads rfl).1 rfl (Or.inl (by decide))
  have hr := (filter_features_spec exProj "dem" "kind" (Value.str "A")
    layerDem rfl).2 (by decide)
  exact ⟨by rw [h.1]; decide, h.2, hr⟩

/-- Replacing a selection set keeps the project map well-formed: keys and
layer ids are untouched. -/
theorem WFProject_update (P : Project) (lid : String) (ids : List Int)
    (hwf : WFProject P) : WFProject (updateLayerSelection P lid ids) := by
  intro p hp
  obtain ⟨q, hq, hfq⟩ := List.mem_map.mp hp
  have hq1 : q.1 = q.2.id := hwf q hq
  rw [← hfq]
  by_cases hk : q.1 = lid
  · rw [if_pos hk]
    exact hq1
  · rw [if_neg hk]
    exact hq1

/-- Unfolding of the selection update on a cons cell of the project map. -/
theorem updateLayerSelection_cons (k : String) (x : Layer) (tl : Project)
    (lid : String) (ids : List Int) :
    updateLayerSelection ((k, x) :: tl) lid ids =
      (if k = lid then (k, setSelection x ids) else (k, x)) ::
        updateLayerSelection tl lid ids := by
  by_cases hk : k = lid <;> simp [updateLayerSelection, hk]

/-- Mutating the selection of the layer resolved by name leaves it the
first match for that name: the scan finds the same layer with the new
selection set. -/
theorem get_layer_by_name_update (nm : String) (l : Layer) (ids : List Int) :
    ∀ P : Project, WFProject P → get_layer_by_name P nm = some l →
      get_layer_by_name (updateLayerSelection P l.id ids) nm =
        some (setSelection l ids) := by
  intro P
  induction P with
  | nil => intro _ h; simp [get_layer_by_name] at h
  | cons hd tl ih =>
    intro hwf h
    obtain ⟨k, x⟩ := hd
    have hk : k = x.id := hwf (k, x) (by simp)
    have hwf' : WFProject tl := fun p hp => hwf p (by simp [hp])
    by_cases hn : x.name = nm
    · rw [get_layer_by_name, if_pos hn] at h
      have hx : x = l := by injection h
      rw [updateLayerSelection_cons, if_pos (show k = l.id from hx ▸ hk),
        get_layer_by_name, if_pos (show (setSelection x ids).name = nm from hn),
        hx]
    · rw [get_layer_by_name, if_neg hn] at h
      have htl := ih hwf' h
      by_cases hkl : k = l.id
      · rw [updateLayerSelection_cons, if_pos hkl, get_layer_by_name,
          if_neg (show ¬(setSelection x ids).name = nm from hn)]
        exact htl
      · rw [updateLayerSelection_cons, if_neg hkl, get_layer_by_name,
          if_neg hn]
        exact htl

/-- Claim C6: on a well-formed project, for every resolved vector layer
and every list of feature ids, `select_features` followed by
`clear_selection` leaves that layer's selection set empty, regardless of
the ids passed to the select call. -/
theorem select_then_clear_empties (P : Project) (nm : String)
    (ids : List Int) (l : Layer) (hwf : WFProject P)
    (hl : get_layer_by_name P nm = some l) (hv : l.type = 0) :
    ∃ l', get_layer_by_name
        (clear_selection (select_features P nm ids).2 nm).2 nm = some l' ∧
      l'.selection = [] := by
  have hsel : (select_features P nm ids).2 = updateLayerSelection P l.id ids := by
    simp [select_features, hl, hv]
  have hwf1 : WFProject (updateLayerSelection P l.id ids) :=
    WFProject_update P l.id ids hwf
  have hget1 : get_layer_by_name (updateLayerSelection P l.id ids) nm =
      some (setSelection l ids) :=
    get_layer_by_name_update nm l ids P hwf hl
  have hv1 : (setSelection l ids).type = 0 := hv
  have hclear : (clear_selection (updateLayerSelection P l.id ids) nm).2 =
      updateLayerSelection (updateLayerSelection P l.id ids)
        (setSelection l ids).id [] := by
    simp [clear_selection, hget1, hv1]
  have hget2 : get_layer_by_name
      (updateLayerSelection (updateLayerSelection P l.id ids)
        (setSelection l ids).id []) nm =
      some (setSelection (setSelection l ids) []) :=
    get_layer_by_name_update nm (setSelection l ids) []
      (updateLayerSelection P l.id ids) hwf1 hget1
  refine ⟨setSelection (setSelection l ids) [], ?_, rfl⟩
  rw [hsel, hclear]
  exact hget2

/-- Witness for C6: on the example project, selecting ids `[1, 2]` in
`roads` and then clearing leaves its selection set empty. -/
theorem select_then_clear_empties_witness :
    ∃ l', get_layer_by_name
        (clear_selection (select_features exProj "roads" [1, 2]).2
          "roads").2 "roads" = some l' ∧
      l'.selection = [] :=
  select_then_clear_empties exProj "roads" [1, 2] layerRoads
    (by
      intro p hp
      simp [exProj] at hp
      rcases hp with h | h <;> subst h <;> rfl)
    rfl rfl

/-- Claim C7: `remove_layer` resolves the name and removes the resolved
layer's id from the project map, returning `true`; it returns `false`
(project untouched) when the name is unresolved; and when the resolved
layer is the only one carrying the name, a subsequent lookup reports
absence and a second removal returns `false`. -/
theorem remove_layer_spec :
    (∀ (P : Project) (nm : String), get_layer_by_name P nm = none →
      remove_layer P nm = (false, P)) ∧
    (∀ (P : Project) (nm : String) (l : Layer),
      get_layer_by_name P nm = some l →
      (remove_layer P nm).1 = true ∧
      (remove_layer P nm).2 = P.filter (fun p => decide (p.1 ≠ l.id)) ∧
      ((∀ p ∈ P, p.2.name = nm → p.1 = l.id) →
        get_layer_by_name (remove_layer P nm).2 nm = none ∧
        (remove_layer (remove_layer P nm).2 nm).1 = false)) := by
  constructor
  · intro P nm h
    simp [remove_layer, h]
  · intro P nm l hl
    have h2 : (remove_layer P nm).2 = P.filter (fun p => decide (p.1 ≠ l.id)) := by
      simp [remove_layer, hl]
    refine ⟨by simp [remove_layer, hl], h2, ?_⟩
    intro huniq
    have hnone : get_layer_by_name (remove_layer P nm).2 nm = none := by
      rw [h2]
      refine (get_layer_by_name_eq_none_iff _ nm).mpr ?_
      intro p hp hname
      obtain ⟨hpP, hpred⟩ := List.mem_filter.mp hp
      exact of_decide_eq_true hpred (huniq p hpP hname)
    have hrm : ∀ Q : Project, get_layer_by_name Q nm = none →
        remove_layer Q nm = (false, Q) := by
      intro Q hQ
      simp [remove_layer, hQ]
    exact ⟨hnone, by rw [hrm _ hnone]⟩

/-- Witness for C7: removing `roads` from the example project succeeds;
afterwards the lookup reports absence and a second removal returns
`false`; removing the never-present `rivers` returns `false` with the
project untouched. -/
theorem remove_layer_spec_witness :
    (remove_layer exProj "roads").1 = true ∧
    get_layer_by_name (remove_layer exProj "roads").2 "roads" = none ∧
    (remove_layer (remove_layer exProj "roads").2 "roads").1 = false ∧
    remove_layer exProj "rivers" = (false, exProj) := by
  have h := remove_layer_spec.2 exProj "roads" layerRoads rfl
  have hs := h.2.2 (by decide)
  exact ⟨h.1, hs.1, hs.2, remove_layer_spec.1 exProj "rivers" (by decide)⟩

/-- Claim C8: `add_vector_layer` asks the collaborator constructor for a
vector layer built from the file path; when the constructed layer is
invalid the operation returns `none` with the project untouched, and when
it is valid the operation registers the layer in the project map under its
id and returns it. -/
theorem add_vector_layer_spec :
    ∀ (ctor : String → LayerSource) (P : Project) (path : String)
      (lname : Option String),
      ((ctor path).valid = false →
        add_vector_layer ctor P path lname = (none, P)) ∧
      ((ctor path).valid = true →
        add_vector_layer ctor P path lname =
          (some (mkVectorLayer (ctor path) (pyStrOr lname (derivedName path))),
            P ++ [((ctor path).id,
              mkVectorLayer (ctor path) (pyStrOr lname (derivedName path)))])) := by
  intro ctor P path lname
  constructor
  · intro h
    simp [add_vector_layer, mkVectorLayer, h]
  · intro h
    simp [add_vector_layer, mkVectorLayer, h]

/-- Witness for C8: the always-invalid constructor yields `none` with the
project untouched, and the always-valid constructor registers the built
layer and returns it. -/
theorem add_vector_layer_spec_witness :
    add_vector_layer exCtorBad exProj "/data/x.shp" (some "x") =
      (none, exProj) ∧
    add_vector_layer exCtor exProj "/data/x.shp" (some "x") =
      (some (mkVectorLayer (exCtor "/data/x.shp")
          (pyStrOr (some "x") (derivedName "/data/x.shp"))),
        exProj ++ [((exCtor "/data/x.shp").id,
          mkVectorLayer (exCtor "/data/x.shp")
            (pyStrOr (some "x") (derivedName "/data/x.shp")))]) :=
  ⟨(add_vector_layer_spec exCtorBad exProj "/data/x.shp" (some "x")).1 rfl,
    (add_vector_layer_spec exCtor exProj "/data/x.shp" (some "x")).2 rfl⟩

/-- Claim C9: when the collaborator reports the constructed layer invalid,
`add_vector_layer` and `add_raster_layer` return `none` and register
nothing: the project map after the failed call is exactly the map before
it. -/
theorem add_invalid_is_atomic :
    ∀ (ctorV ctorR : String → LayerSource) (P : Project) (path : String)
      (lname : Option String),
      ((ctorV path).valid = false →
        (add_vector_layer ctorV P path lname).1 = none ∧
        (add_vector_layer ctorV P path lname).2 = P) ∧
      ((ctorR path).valid = false →
        (add_raster_layer ctorR P path lname).1 = none ∧
        (add_raster_layer ctorR P path lname).2 = P) := by
  intro ctorV ctorR P path lname
  constructor
  · intro h
    constructor <;> simp [add_vector_layer, mkVectorLayer, h]
  · intro h
    constructor <;> simp [add_raster_layer, mkRasterLayer, h]

/-- Witness for C9: with the always-invalid constructor, both add
operations fail and leave the example project exactly as it was. -/
theorem add_invalid_is_atomic_witness :
    ((add_vector_layer exCtorBad exProj "/data/x.shp" none).1 = none ∧
      (add_vector_layer exCtorBad exProj "/data/x.shp" none).2 = exProj) ∧
    ((add_raster_layer exCtorBad exProj "/data/x.tif" none).1 = none ∧
      (add_raster_layer exCtorBad exProj "/data/x.tif" none).2 = exProj) :=
  ⟨(add_invalid_is_atomic exCtorBad exCtorBad exProj "/data/x.shp" none).1 rfl,
    (add_invalid_is_atomic exCtorBad exCtorBad exProj "/data/x.tif" none).2 rfl⟩

/-- Claim C10: when the optional layer name is not provided, both add
operations register the layer under the name derived from the file path —
the base name with its final extension removed — so `/data/roads.shp`
yields the name `roads`. -/
theorem add_default_name_derived :
    ∀ (ctor : String → LayerSource) (P : Project) (path : String),
      ((ctor path).valid = true →
        ∃ layer, (add_vector_layer ctor P path none).1 = some layer ∧
          layer.name = derivedName path ∧
          (add_vector_layer ctor P path none).2 = P ++ [(layer.id, layer)]) ∧
      ((ctor path).valid = true →
        ∃ layer, (add_raster_layer ctor P path none).1 = some layer ∧
          layer.name = derivedName path ∧
          (add_raster_layer ctor P path none).2 = P ++ [(layer.id, layer)]) ∧
      derivedName "/data/roads.shp" = "roads" := by
  intro ctor P path
  refine ⟨?_, ?_, by decide⟩
  · intro h
    refine ⟨mkVectorLayer (ctor path) (pyStrOr none (derivedName path)),
      ?_, rfl, ?_⟩ <;> simp [add_vector_layer, mkVectorLayer, h]
  · intro h
    refine ⟨mkRasterLayer (ctor path) (pyStrOr none (derivedName path)),
      ?_, rfl, ?_⟩ <;> simp [add_raster_layer, mkRasterLayer, h]

/-- Witness for C10: with the always-valid constructor and no provided
name, adding `/data/roads.shp` registers a layer named `roads`. -/
theorem add_default_name_derived_witness :
    (∃ layer,
      (add_vector_layer exCtor exProj "/data/roads.shp" none).1 = some layer ∧
      layer.name = derivedName "/data/roads.shp" ∧
      (add_vector_layer exCtor exProj "/data/roads.shp" none).2 =
        exProj ++ [(layer.id, layer)]) ∧
    derivedName "/data/roads.shp" = "roads" :=
  ⟨(add_default_name_derived exCtor exProj "/data/roads.shp").1 rfl,
    (add_default_name_derived exCtor exProj "/data/roads.shp").2.2⟩

end QGISExample
